import Mathlib

/-!
Verification of the request-execution core of an OpenAI HTTP client
library (`src/async-openai/src/client.rs`), as a shallow embedding.

The embedding covers:
* the `Client` configuration record and its builder methods
  (`with_api_key`, `with_org_id`, `with_api_base`, `with_backoff`);
* `Client::headers` with its fallible header-value parse
  (`self.org_id.as_str().parse().unwrap()`), whose failure is a panic,
  modelled as an explicit `panicked` outcome;
* request assembly for `get`, `delete`, `post`, `post_form`,
  `post_stream` and `get_stream`;
* `Client::process_response`: success/error discrimination and JSON
  decoding of a response body;
* `Client::execute`: the retry loop over `backoff::future::retry`,
  with per-attempt classification into `Ok` / `Permanent` / `Transient`
  (HTTP 429 with error type other than `"insufficient_quota"` is the
  only transient case);
* `Client::stream`: the producer loop that turns server-sent events
  into a channel of `Result` items.

JSON deserialization (`serde_json`) is external to the repository, so
decoders appear as parameters `B → Except String α` (error = the
serde message).  Time, actual sockets and the tokio scheduler are abstracted:
the network outcome of an attempt is a value of `HttpOutcome`, the
remaining budget of the backoff policy is a fuel parameter, and the receiver side of
the stream channel is a predicate saying whether the n-th `send`
succeeds (it fails exactly when the receiver was dropped).
-/

/-- Error body carried by the error envelope of the remote service
`{"error": {"message", "type", "code"?}}` (`error::ApiError` in the
source; field `r#type` is written `type` here). -/
structure ApiErrorBody where
  message : String
  type : String
  code : Option String
deriving DecidableEq, Repr

/-- `error::WrappedError`: the envelope wrapping an `ApiErrorBody`. -/
structure WrappedError where
  error : ApiErrorBody
deriving DecidableEq, Repr

/-- `error::OpenAIError`, restricted to the variants `client.rs`
constructs: `Reqwest` (transport), `ApiError`, `JSONDeserialize`
(serde message), `StreamError` (event-source error string). -/
inductive OpenAIError where
  | Reqwest (msg : String)
  | ApiError (e : ApiErrorBody)
  | JSONDeserialize (msg : String)
  | StreamError (msg : String)
deriving DecidableEq, Repr

/-- Model of `backoff::ExponentialBackoff` as the policy record the
spec describes; intervals in milliseconds.  The retry theorems use a
separate fuel abstraction for the number of transient retries the
policy still allows, so these fields are carried but not computed
with. -/
structure ExponentialBackoff where
  initial_interval : Nat
  multiplier_times_100 : Nat
  max_interval : Nat
  max_elapsed_time : Nat
deriving DecidableEq, Repr

/-- The `Client` struct: api key, base url, organization id, backoff
configuration. -/
structure Client where
  api_key : String
  api_base : String
  org_id : String
  backoff : ExponentialBackoff
deriving DecidableEq, Repr

/-- `pub const ORGANIZATION_HEADER: &str = "OpenAI-Organization"`. -/
def ORGANIZATION_HEADER : String := "OpenAI-Organization"

/-- `Client::with_api_key`. -/
def Client.with_api_key (c : Client) (api_key : String) : Client :=
  { c with api_key := api_key }

/-- `Client::with_org_id`. -/
def Client.with_org_id (c : Client) (org_id : String) : Client :=
  { c with org_id := org_id }

/-- `Client::with_api_base`. -/
def Client.with_api_base (c : Client) (api_base : String) : Client :=
  { c with api_base := api_base }

/-- `Client::with_backoff`. -/
def Client.with_backoff (c : Client) (backoff : ExponentialBackoff) : Client :=
  { c with backoff := backoff }

/-- Validity of a byte of an HTTP header value per the `http` crate
(`HeaderValue::from_str`, reached through `"...".parse()` and
`bearer_auth`): horizontal tab, or a visible/obs-text byte
(32 ≤ b, b ≠ 127).  Characters above 127 encode to UTF-8 bytes ≥ 128,
all of which the crate accepts, so checking code points suffices. -/
def isValidHeaderChar (ch : Char) : Bool :=
  ch = '\t' || (32 ≤ ch.val && ch.val ≠ 127)

/-- A string is a valid HTTP header value when every character is
(`s.data` is the character list of the string). -/
def isValidHeaderValue (s : String) : Bool :=
  s.data.all isValidHeaderChar

/-- `str::parse::<HeaderValue>`: `some` of the value on success,
`none` on `InvalidHeaderValue`. -/
def parseHeaderValue (s : String) : Option String :=
  if isValidHeaderValue s then some s else none

/-- `Client::headers`: an empty map when `org_id` is empty, otherwise
the organization header with the parsed `org_id` value.  The source
calls `.parse().unwrap()`: an unparsable `org_id` panics, modelled as
`Except.error ()`. -/
def Client.headers (c : Client) : Except Unit (List (String × String)) :=
  if c.org_id = "" then Except.ok []
  else
    match parseHeaderValue c.org_id with
    | some v => Except.ok [(ORGANIZATION_HEADER, v)]
    | none => Except.error ()

/-- HTTP method of an assembled request. -/
inductive HttpMethod where
  | get
  | post
  | delete
deriving DecidableEq, Repr

/-- Body attached by the builder: none (GET/DELETE), `.json(&request)`,
or `.multipart(form)`; payloads kept as opaque strings. -/
inductive RequestBody where
  | none
  | json (payload : String)
  | multipart (form : String)
deriving DecidableEq, Repr

/-- An assembled `reqwest::Request`: method, url, header list (in
insertion order), body. -/
structure Request where
  method : HttpMethod
  url : String
  headers : List (String × String)
  body : RequestBody
deriving DecidableEq, Repr

/-- Outcome of assembling a request.  `panicked` is the process crash
from the `.unwrap()` in `Client::headers`; `err` is a builder error surfaced
by `.build()?` (an api key that is not a valid header value makes
`bearer_auth` record one). -/
inductive BuildResult where
  | panicked
  | err (msg : String)
  | ok (r : Request)
deriving DecidableEq, Repr

/-- Shared request assembly: evaluate `Client::headers` (possible
panic), then the `Authorization: Bearer <api_key>` header recorded by
`bearer_auth` (possible build error), then combine.  `orgFirst`
reflects call order: the non-streaming builders call `bearer_auth`
before `.headers(...)`, the streaming builders after. -/
def buildCommon (c : Client) (m : HttpMethod) (url : String)
    (body : RequestBody) (orgFirst : Bool) : BuildResult :=
  match c.headers with
  | Except.error _ => BuildResult.panicked
  | Except.ok orgHeaders =>
    match parseHeaderValue ("Bearer " ++ c.api_key) with
    | none => BuildResult.err "builder error: invalid header value"
    | some auth =>
      let hs := if orgFirst then orgHeaders ++ [("Authorization", auth)]
                else ("Authorization", auth) :: orgHeaders
      BuildResult.ok { method := m, url := url, headers := hs, body := body }

/-- Request assembly of `Client::get`. -/
def Client.buildGet (c : Client) (path : String) : BuildResult :=
  buildCommon c HttpMethod.get (c.api_base ++ path) RequestBody.none false

/-- Request assembly of `Client::delete`. -/
def Client.buildDelete (c : Client) (path : String) : BuildResult :=
  buildCommon c HttpMethod.delete (c.api_base ++ path) RequestBody.none false

/-- Request assembly of `Client::post` (`payload` is the serialized
JSON body). -/
def Client.buildPost (c : Client) (path payload : String) : BuildResult :=
  buildCommon c HttpMethod.post (c.api_base ++ path) (RequestBody.json payload) false

/-- Request assembly of `Client::post_form`. -/
def Client.buildPostForm (c : Client) (path form : String) : BuildResult :=
  buildCommon c HttpMethod.post (c.api_base ++ path) (RequestBody.multipart form) false

/-- Request assembly of `Client::post_stream` (headers attached before
`bearer_auth` in the source). -/
def Client.buildPostStream (c : Client) (path payload : String) : BuildResult :=
  buildCommon c HttpMethod.post (c.api_base ++ path) (RequestBody.json payload) true

/-- Request assembly of `Client::get_stream` (`query` is the encoded
query string appended by `.query(query)`). -/
def Client.buildGetStream (c : Client) (path query : String) : BuildResult :=
  buildCommon c HttpMethod.get (c.api_base ++ path ++ "?" ++ query) RequestBody.none true

/-- Whether a built request carries a header with the given name. -/
def Request.hasHeader (r : Request) (name : String) : Bool :=
  r.headers.any (fun p => p.1 = name)

/-- `reqwest::StatusCode::is_success`: 2xx. -/
def isSuccessStatus (status : Nat) : Bool :=
  200 ≤ status && status < 300

/-- Network outcome of one issued attempt: the send itself failed
(`client.execute(..).await` errored), or a response arrived with a
status and a body read that may itself fail
(`response.bytes().await`). -/
inductive HttpOutcome (B : Type) where
  | sendFailure (msg : String)
  | response (status : Nat) (body : Except String B)

/-- `Client::process_response` on a received response: a failed body
read propagates as `Reqwest`; a non-success status parses the body as
a `WrappedError` (failure → `JSONDeserialize`, success →
`ApiError(envelope)`); a success status parses the body as `O`
(failure → `JSONDeserialize`). -/
def process_response {B O : Type} (parseErr : B → Except String WrappedError)
    (parseO : B → Except String O) (status : Nat) (body : Except String B) :
    Except OpenAIError O :=
  match body with
  | Except.error m => Except.error (OpenAIError.Reqwest m)
  | Except.ok b =>
    if !isSuccessStatus status then
      match parseErr b with
      | Except.error m => Except.error (OpenAIError.JSONDeserialize m)
      | Except.ok we => Except.error (OpenAIError.ApiError we.error)
    else
      match parseO b with
      | Except.error m => Except.error (OpenAIError.JSONDeserialize m)
      | Except.ok o => Except.ok o

/-- Result of one attempt inside the operation closure of
`backoff::future::retry`
closure (`backoff::Error::Permanent` / `backoff::Error::Transient`). -/
inductive BackoffDecision (O : Type) where
  | Ok (o : O)
  | Permanent (e : OpenAIError)
  | Transient (e : OpenAIError)
deriving DecidableEq, Repr

/-- The body of the retry closure in `Client::execute`, classifying one
outcome of one attempt: transport failures (send or body read) are
`Permanent (Reqwest ..)`; a non-success status whose envelope fails to
parse is `Permanent (JSONDeserialize ..)`; status 429 with envelope
type other than `"insufficient_quota"` is `Transient (ApiError ..)`;
any other parsed non-success envelope is `Permanent (ApiError ..)`; a
success status decodes to `Ok` or `Permanent (JSONDeserialize ..)`. -/
def attemptDecision {B O : Type} (parseErr : B → Except String WrappedError)
    (parseO : B → Except String O) (out : HttpOutcome B) : BackoffDecision O :=
  match out with
  | HttpOutcome.sendFailure m => BackoffDecision.Permanent (OpenAIError.Reqwest m)
  | HttpOutcome.response status body =>
    match body with
    | Except.error m => BackoffDecision.Permanent (OpenAIError.Reqwest m)
    | Except.ok b =>
      if !isSuccessStatus status then
        match parseErr b with
        | Except.error m => BackoffDecision.Permanent (OpenAIError.JSONDeserialize m)
        | Except.ok we =>
          if status = 429 && we.error.type ≠ "insufficient_quota" then
            BackoffDecision.Transient (OpenAIError.ApiError we.error)
          else
            BackoffDecision.Permanent (OpenAIError.ApiError we.error)
      else
        match parseO b with
        | Except.error m => BackoffDecision.Permanent (OpenAIError.JSONDeserialize m)
        | Except.ok o => BackoffDecision.Ok o

/-- `backoff::future::retry` over the attempt closure: `outs i` is the
network outcome of the i-th issued attempt, `fuel` the number of
further retries the policy field `max_elapsed_time` still allows.  `Ok`
returns, `Permanent` surfaces at once, `Transient` retries while fuel
remains and otherwise surfaces the last error. -/
def retryLoop {B O : Type} (parseErr : B → Except String WrappedError)
    (parseO : B → Except String O) (outs : Nat → HttpOutcome B) :
    Nat → Nat → Except OpenAIError O
  | fuel, i =>
    match attemptDecision parseErr parseO (outs i) with
    | BackoffDecision.Ok o => Except.ok o
    | BackoffDecision.Permanent e => Except.error e
    | BackoffDecision.Transient e =>
      match fuel with
      | 0 => Except.error e
      | Nat.succ f => retryLoop parseErr parseO outs f (i + 1)

/-- Number of attempts the retry loop issues, starting at attempt
index `i` with the given fuel. -/
def retryCount {B O : Type} (parseErr : B → Except String WrappedError)
    (parseO : B → Except String O) (outs : Nat → HttpOutcome B) :
    Nat → Nat → Nat
  | 0, _ => 1
  | Nat.succ f, i =>
    match attemptDecision (O := O) parseErr parseO (outs i) with
    | BackoffDecision.Ok _ => 1
    | BackoffDecision.Permanent _ => 1
    | BackoffDecision.Transient _ => 1 + retryCount (O := O) parseErr parseO outs f (i + 1)

/-- `Client::execute`: a duplicable request (`try_clone` succeeds) runs
the backoff retry loop; a non-duplicable one is issued exactly once and
its response goes through `process_response`. -/
def Client.execute {B O : Type} (duplicable : Bool)
    (parseErr : B → Except String WrappedError) (parseO : B → Except String O)
    (outs : Nat → HttpOutcome B) (fuel : Nat) : Except OpenAIError O :=
  if duplicable then retryLoop parseErr parseO outs fuel 0
  else
    match outs 0 with
    | HttpOutcome.sendFailure m => Except.error (OpenAIError.Reqwest m)
    | HttpOutcome.response status body => process_response parseErr parseO status body

/-- Number of attempts `Client::execute` issues. -/
def Client.executeCount {B O : Type} (duplicable : Bool)
    (parseErr : B → Except String WrappedError) (parseO : B → Except String O)
    (outs : Nat → HttpOutcome B) (fuel : Nat) : Nat :=
  if duplicable then retryCount (O := O) parseErr parseO outs fuel 0 else 1

/-- One event as seen by the producer loop in `Client::stream`:
`event_source.next()` yielded `Err(e)` (transport-level), `Open`, or a
`Message` with a data payload. -/
inductive RawEvent where
  | failure (msg : String)
  | open
  | message (data : String)
deriving DecidableEq, Repr

/-- The producer loop of `Client::stream`, run to completion on the
event list of the wire.  `rxAccepts n` says whether the n-th `tx.send`
succeeds (false exactly when the receiver was dropped); `sent` counts
sends so far.  The returned list is the sequence of items actually
published on the channel, i.e. what the consumer-side stream yields:
an event error publishes `Err(StreamError)` and the loop continues
unless the send failed; `Open` is skipped; a message equal to
`"[DONE]"` breaks; any other message publishes the parse result and
continues unless the send failed. -/
def streamLoop {O : Type} (parse : String → Except String O)
    (rxAccepts : Nat → Bool) : List RawEvent → Nat → List (Except OpenAIError O)
  | [], _ => []
  | RawEvent.failure msg :: rest, sent =>
    if rxAccepts sent then
      Except.error (OpenAIError.StreamError msg) :: streamLoop parse rxAccepts rest (sent + 1)
    else []
  | RawEvent.open :: rest, sent => streamLoop parse rxAccepts rest sent
  | RawEvent.message d :: rest, sent =>
    if d = "[DONE]" then []
    else
      let item : Except OpenAIError O :=
        match parse d with
        | Except.error e => Except.error (OpenAIError.JSONDeserialize e)
        | Except.ok o => Except.ok o
      if rxAccepts sent then item :: streamLoop parse rxAccepts rest (sent + 1)
      else []

/-- A consumer that is never dropped: every send succeeds. -/
def liveRx : Nat → Bool := fun _ => true

/-- Whether an item on the exposed sequence is an `Err(StreamError)`. -/
def isStreamErrorItem {O : Type} (item : Except OpenAIError O) : Bool :=
  match item with
  | Except.error (OpenAIError.StreamError _) => true
  | _ => false

/-! ## Theorems -/

/-- C10: each builder method modifies only its own field: `with_api_key`
changes only `api_key`, `with_org_id` only `org_id`, `with_api_base`
only `api_base`, `with_backoff` only the backoff policy. -/
theorem builder_methods_frame (c : Client) (k o b : String)
    (p : ExponentialBackoff) :
    (c.with_api_key k).api_key = k ∧
    (c.with_api_key k).api_base = c.api_base ∧
    (c.with_api_key k).org_id = c.org_id ∧
    (c.with_api_key k).backoff = c.backoff ∧
    (c.with_org_id o).org_id = o ∧
    (c.with_org_id o).api_key = c.api_key ∧
    (c.with_org_id o).api_base = c.api_base ∧
    (c.with_org_id o).backoff = c.backoff ∧
    (c.with_api_base b).api_base = b ∧
    (c.with_api_base b).api_key = c.api_key ∧
    (c.with_api_base b).org_id = c.org_id ∧
    (c.with_api_base b).backoff = c.backoff ∧
    (c.with_backoff p).backoff = p ∧
    (c.with_backoff p).api_key = c.api_key ∧
    (c.with_backoff p).api_base = c.api_base ∧
    (c.with_backoff p).org_id = c.org_id :=
  ⟨rfl, rfl, rfl, rfl, rfl, rfl, rfl, rfl, rfl, rfl, rfl, rfl, rfl, rfl, rfl, rfl⟩

/-- C3: on a configuration whose `org_id` contains a character invalid
in an HTTP header value (here a newline), `Client::headers` hits the
`.parse().unwrap()` panic, so request assembly crashes the process
instead of returning a `ConfigError` result value. -/
theorem headers_panics_on_invalid_org_id :
    Client.headers
        { api_key := "sk-test", api_base := "https://api.openai.com/v1",
          org_id := "org\nid", backoff := ⟨500, 150, 60000, 900000⟩ }
      = Except.error () ∧
    Client.buildGet
        { api_key := "sk-test", api_base := "https://api.openai.com/v1",
          org_id := "org\nid", backoff := ⟨500, 150, 60000, 900000⟩ }
        "/models"
      = BuildResult.panicked :=
  ⟨by rfl, by decide⟩

/-- Helper: with a live consumer, the producer loop on N parsable
non-sentinel messages followed by the `"[DONE]"` sentinel publishes
exactly the N decoded values, from any send counter. -/
theorem streamLoop_messages_then_done {O : Type} (parse : String → Except String O)
    (pairs : List (String × O))
    (h : ∀ p ∈ pairs, parse p.1 = Except.ok p.2 ∧ p.1 ≠ "[DONE]") :
    ∀ sent : Nat,
      streamLoop parse liveRx
          (pairs.map (fun p => RawEvent.message p.1) ++ [RawEvent.message "[DONE]"]) sent
        = pairs.map (fun p => Except.ok p.2) := by
  induction pairs with
  | nil => intro sent; simp [streamLoop]
  | cons p rest ih =>
    intro sent
    obtain ⟨hparse, hdone⟩ := h p (List.mem_cons_self p rest)
    have hrest : ∀ q ∈ rest, parse q.1 = Except.ok q.2 ∧ q.1 ≠ "[DONE]" :=
      fun q hq => h q (List.mem_cons_of_mem p hq)
    simp only [List.map_cons, List.cons_append, streamLoop, hdone, if_false, hparse,
      liveRx, if_true]
    exact congrArg _ (ih hrest (sent + 1))

/-- C5: a stream whose wire events are N messages with valid JSON
payloads followed by the `"[DONE]"` sentinel yields exactly the N
decoded `Ok` items in arrival order and then terminates: no error item
and no item for the sentinel. -/
theorem stream_valid_messages_then_done {O : Type} (parse : String → Except String O)
    (pairs : List (String × O))
    (h : ∀ p ∈ pairs, parse p.1 = Except.ok p.2 ∧ p.1 ≠ "[DONE]") :
    streamLoop parse liveRx
        (pairs.map (fun p => RawEvent.message p.1) ++ [RawEvent.message "[DONE]"]) 0
      = pairs.map (fun p => Except.ok p.2) :=
  streamLoop_messages_then_done parse pairs h 0

/-- Witness for C5 at a concrete two-message stream. -/
theorem stream_valid_messages_then_done_witness :
    streamLoop (fun s => if s = "one" then Except.ok 1 else
        if s = "two" then Except.ok 2 else Except.error "bad") liveRx
        ([("one", 1), ("two", 2)].map (fun p => RawEvent.message p.1)
          ++ [RawEvent.message "[DONE]"]) 0
      = [("one", (1 : Nat)), ("two", 2)].map (fun p => Except.ok p.2) :=
  stream_valid_messages_then_done _ _ (by
    intro p hp
    simp only [List.mem_cons, List.not_mem_nil, or_false] at hp
    rcases hp with hp | hp <;> subst hp <;> exact ⟨by rfl, by decide⟩)

/-- C6: with a live consumer, a message event whose payload is not the
sentinel and fails to parse publishes exactly one
`Err(JSONDeserialize)` item, and the loop then continues with the
remaining events instead of terminating. -/
theorem stream_malformed_message_continues {O : Type}
    (parse : String → Except String O) (bad m : String)
    (rest : List RawEvent) (sent : Nat)
    (hdone : bad ≠ "[DONE]") (hparse : parse bad = Except.error m) :
    streamLoop parse liveRx (RawEvent.message bad :: rest) sent
      = Except.error (OpenAIError.JSONDeserialize m)
          :: streamLoop parse liveRx rest (sent + 1) := by
  simp only [streamLoop, hdone, if_false, hparse, liveRx, if_true]

/-- Witness for C6: a malformed payload followed by a good one yields
the deserialization error and then the decoded item. -/
theorem stream_malformed_message_continues_witness :
    streamLoop (fun s => if s = "good" then Except.ok 7 else Except.error "expected value")
        liveRx [RawEvent.message "not-json", RawEvent.message "good"] 0
      = Except.error (OpenAIError.JSONDeserialize "expected value")
          :: streamLoop
              (fun s => if s = "good" then Except.ok 7 else Except.error "expected value")
              liveRx [RawEvent.message "good"] 1 :=
  stream_malformed_message_continues _ "not-json" "expected value" _ 0 (by decide) (by rfl)

/-- C2 counterexample: on the concrete wire sequence of two transport
errors (live consumer), the producer loop publishes two
`Err(StreamError)` items — after the first transport error the loop
does not terminate, contradicting the claim that a stream never yields
more than one `StreamError` item. -/
theorem stream_two_transport_errors :
    (streamLoop (fun s => Except.error s) liveRx
        [RawEvent.failure "connection reset", RawEvent.failure "connection lost"] 0
      : List (Except OpenAIError Nat))
      = [Except.error (OpenAIError.StreamError "connection reset"),
         Except.error (OpenAIError.StreamError "connection lost")] ∧
    1 < ((streamLoop (fun s => Except.error s) liveRx
        [RawEvent.failure "connection reset", RawEvent.failure "connection lost"] 0
      : List (Except OpenAIError Nat)).countP isStreamErrorItem) := by
  constructor
  · rfl
  · decide

/-- C2 (amended): on a transport-level event error the producer
publishes one `Err(StreamError)` item and then continues the loop with
the remaining events; it terminates at that point only when the
publish itself fails because the consumer side was dropped (in which
case nothing is published). -/
theorem stream_transport_error_publishes_and_continues {O : Type}
    (parse : String → Except String O) (msg : String)
    (rest : List RawEvent) (sent : Nat) :
    streamLoop parse liveRx (RawEvent.failure msg :: rest) sent
      = Except.error (OpenAIError.StreamError msg)
          :: streamLoop parse liveRx rest (sent + 1) ∧
    streamLoop parse (fun _ => false) (RawEvent.failure msg :: rest) sent = [] := by
  constructor
  · simp only [streamLoop, liveRx, if_true]
  · simp [streamLoop]

/-- C4: `process_response` on a delivered body: non-success status →
parse as error envelope (failure → `JSONDeserialize`, success →
`ApiError(envelope)`); success status → parse as the expected type
(failure → `JSONDeserialize`, success → `Ok`). -/
theorem process_response_discrimination {B O : Type}
    (parseErr : B → Except String WrappedError) (parseO : B → Except String O)
    (status : Nat) (b : B) :
    (isSuccessStatus status = false →
      (∀ m, parseErr b = Except.error m →
        process_response parseErr parseO status (Except.ok b)
          = Except.error (OpenAIError.JSONDeserialize m)) ∧
      (∀ we, parseErr b = Except.ok we →
        process_response parseErr parseO status (Except.ok b)
          = Except.error (OpenAIError.ApiError we.error))) ∧
    (isSuccessStatus status = true →
      (∀ m, parseO b = Except.error m →
        process_response parseErr parseO status (Except.ok b)
          = Except.error (OpenAIError.JSONDeserialize m)) ∧
      (∀ o, parseO b = Except.ok o →
        process_response parseErr parseO status (Except.ok b) = Except.ok o)) := by
  constructor
  · intro hns
    refine ⟨fun m hm => ?_, fun we hwe => ?_⟩
    · simp [process_response, hns, hm]
    · simp [process_response, hns, hwe]
  · intro hs
    refine ⟨fun m hm => ?_, fun o ho => ?_⟩
    · simp [process_response, hs, hm]
    · simp [process_response, hs, ho]

/-- Witness for C4 at status 500 with a parsable envelope. -/
theorem process_response_discrimination_witness :
    process_response (fun _ => Except.ok ⟨⟨"boom", "server_error", none⟩⟩)
        (fun _ => (Except.error "unused" : Except String Nat)) 500 (Except.ok "body")
      = Except.error (OpenAIError.ApiError ⟨"boom", "server_error", none⟩) :=
  ((process_response_discrimination _ _ 500 "body").1 (by decide)).2
    ⟨⟨"boom", "server_error", none⟩⟩ rfl

/-- C1: for an attempt whose response has a non-success status and a
parsable error envelope: status 429 with envelope type other than
`"insufficient_quota"` is classified transient and, while the policy
allows, the loop retries with the next attempt; 429 with
`"insufficient_quota"`, and every other non-success status, is
classified permanent and the loop returns `ApiError` after that single
attempt with no further attempts. -/
theorem retry_429_classification {B O : Type}
    (parseErr : B → Except String WrappedError) (parseO : B → Except String O)
    (outs : Nat → HttpOutcome B) (fuel i status : Nat) (b : B) (we : WrappedError)
    (hout : outs i = HttpOutcome.response status (Except.ok b))
    (hns : isSuccessStatus status = false)
    (hpe : parseErr b = Except.ok we) :
    (status = 429 → we.error.type ≠ "insufficient_quota" →
      attemptDecision parseErr parseO (outs i)
        = BackoffDecision.Transient (OpenAIError.ApiError we.error) ∧
      ∀ f, retryLoop parseErr parseO outs (f + 1) i
        = retryLoop parseErr parseO outs f (i + 1)) ∧
    ((status = 429 → we.error.type = "insufficient_quota") →
      attemptDecision parseErr parseO (outs i)
        = BackoffDecision.Permanent (OpenAIError.ApiError we.error) ∧
      retryLoop parseErr parseO outs fuel i
        = Except.error (OpenAIError.ApiError we.error) ∧
      retryCount (O := O) parseErr parseO outs fuel i = 1) := by
  constructor
  · intro h429 htype
    have hdec : attemptDecision parseErr parseO (outs i)
        = BackoffDecision.Transient (OpenAIError.ApiError we.error) := by
      subst h429
      simp [attemptDecision, hout, hns, hpe, htype]
    refine ⟨hdec, fun f => ?_⟩
    rw [retryLoop, hdec]
  · intro himp
    have hdec : attemptDecision parseErr parseO (outs i)
        = BackoffDecision.Permanent (OpenAIError.ApiError we.error) := by
      by_cases h429 : status = 429
      · have htype := himp h429
        subst h429
        simp [attemptDecision, hout, hns, hpe, htype]
      · simp [attemptDecision, hout, hns, hpe, h429]
    refine ⟨hdec, ?_, ?_⟩
    · rw [retryLoop, hdec]
    · cases fuel with
      | zero => rfl
      | succ f => rw [retryCount, hdec]

/-- Witness for C1: the transient branch at a concrete 429 rate-limit
envelope, and the permanent branch at a concrete 429
insufficient-quota envelope. -/
theorem retry_429_classification_witness :
    attemptDecision (fun _ => Except.ok ⟨⟨"slow down", "rate_limit_exceeded", none⟩⟩)
        (fun _ => (Except.error "unused" : Except String Nat))
        (HttpOutcome.response 429 (Except.ok "body"))
      = BackoffDecision.Transient
          (OpenAIError.ApiError ⟨"slow down", "rate_limit_exceeded", none⟩) ∧
    retryLoop (fun _ => Except.ok ⟨⟨"no credits", "insufficient_quota", none⟩⟩)
        (fun _ => (Except.error "unused" : Except String Nat))
        (fun _ => HttpOutcome.response 429 (Except.ok "body")) 5 0
      = Except.error (OpenAIError.ApiError ⟨"no credits", "insufficient_quota", none⟩) ∧
    retryCount (O := Nat) (fun _ => Except.ok ⟨⟨"no credits", "insufficient_quota", none⟩⟩)
        (fun _ => Except.error "unused")
        (fun _ => HttpOutcome.response 429 (Except.ok "body")) 5 0 = 1 :=
  ⟨((retry_429_classification
        (fun _ => Except.ok ⟨⟨"slow down", "rate_limit_exceeded", none⟩⟩)
        (fun _ => (Except.error "unused" : Except String Nat))
        (fun _ => HttpOutcome.response 429 (Except.ok "body")) 5 0 429 "body"
        ⟨⟨"slow down", "rate_limit_exceeded", none⟩⟩ rfl (by decide) rfl).1
      rfl (by decide)).1,
   ((retry_429_classification
        (fun _ => Except.ok ⟨⟨"no credits", "insufficient_quota", none⟩⟩)
        (fun _ => (Except.error "unused" : Except String Nat))
        (fun _ => HttpOutcome.response 429 (Except.ok "body")) 5 0 429 "body"
        ⟨⟨"no credits", "insufficient_quota", none⟩⟩ rfl (by decide) rfl).2
      (fun _ => rfl)).2⟩

/-- C8: a transport-level failure of an attempt — the send failed, or
the response body could not be read — is classified permanent, and the
retry loop surfaces it immediately as the final result with no further
attempts, whatever fuel the backoff policy still has. -/
theorem transport_failure_permanent {B O : Type}
    (parseErr : B → Except String WrappedError) (parseO : B → Except String O)
    (outs : Nat → HttpOutcome B) (fuel i : Nat) (m : String)
    (h : outs i = HttpOutcome.sendFailure m ∨
         ∃ status, outs i = HttpOutcome.response status (Except.error m)) :
    attemptDecision parseErr parseO (outs i)
      = BackoffDecision.Permanent (OpenAIError.Reqwest m) ∧
    retryLoop parseErr parseO outs fuel i = Except.error (OpenAIError.Reqwest m) ∧
    retryCount (O := O) parseErr parseO outs fuel i = 1 := by
  have hdec : attemptDecision parseErr parseO (outs i)
      = BackoffDecision.Permanent (OpenAIError.Reqwest m) := by
    rcases h with h | ⟨status, h⟩ <;> rw [h] <;> rfl
  refine ⟨hdec, ?_, ?_⟩
  · rw [retryLoop, hdec]
  · cases fuel with
    | zero => rfl
    | succ f => rw [retryCount, hdec]

/-- Witness for C8 at a concrete failed send with fuel remaining. -/
theorem transport_failure_permanent_witness :
    retryLoop (fun _ => (Except.error "unused" : Except String WrappedError))
        (fun _ => (Except.error "unused" : Except String Nat))
        (fun _ => (HttpOutcome.sendFailure "connection refused" : HttpOutcome String)) 4 0
      = Except.error (OpenAIError.Reqwest "connection refused") :=
  (transport_failure_permanent _ _
    (fun _ => (HttpOutcome.sendFailure "connection refused" : HttpOutcome String)) 4 0
    "connection refused" (Or.inl rfl)).2.1

/-- C7: a non-duplicable request (`try_clone` yields nothing) is issued
exactly once and its single response is decoded by `process_response`;
the result depends only on the outcome of that first attempt, never on the
backoff policy or on later outcomes, whatever the response status. -/
theorem execute_non_duplicable {B O : Type}
    (parseErr : B → Except String WrappedError) (parseO : B → Except String O)
    (outs outs2 : Nat → HttpOutcome B) (fuel fuel2 : Nat) :
    Client.execute false parseErr parseO outs fuel
      = (match outs 0 with
         | HttpOutcome.sendFailure m => Except.error (OpenAIError.Reqwest m)
         | HttpOutcome.response status body =>
            process_response parseErr parseO status body) ∧
    Client.executeCount false parseErr parseO outs fuel = 1 ∧
    (outs 0 = outs2 0 →
      Client.execute false parseErr parseO outs fuel
        = Client.execute false parseErr parseO outs2 fuel2) := by
  refine ⟨rfl, rfl, fun h => ?_⟩
  simp only [Client.execute, if_neg (by simp : ¬ (false = true)), h]

/-- Witness for C7: the same non-duplicable request under two
different backoff budgets, a 429 quota response at the single
attempt. -/
theorem execute_non_duplicable_witness :
    Client.execute false (fun _ => Except.ok ⟨⟨"no credits", "insufficient_quota", none⟩⟩)
        (fun _ => (Except.error "unused" : Except String Nat))
        (fun _ => (HttpOutcome.response 429 (Except.ok "body") : HttpOutcome String)) 3
      = Client.execute false (fun _ => Except.ok ⟨⟨"no credits", "insufficient_quota", none⟩⟩)
          (fun _ => (Except.error "unused" : Except String Nat))
          (fun _ => (HttpOutcome.response 429 (Except.ok "body") : HttpOutcome String)) 7 ∧
    Client.executeCount false
        (fun _ => Except.ok ⟨⟨"no credits", "insufficient_quota", none⟩⟩)
        (fun _ => (Except.error "unused" : Except String Nat))
        (fun _ => (HttpOutcome.response 429 (Except.ok "body") : HttpOutcome String)) 3 = 1 :=
  ⟨(execute_non_duplicable _ _ _ _ 3 7).2.2 rfl,
   (execute_non_duplicable _ _ _
      (fun _ => (HttpOutcome.response 429 (Except.ok "body") : HttpOutcome String)) 3 7).2.1⟩

/-- Helper: any request assembled by `buildCommon` carries the
organization header exactly when the configured `org_id` is
non-empty. -/
theorem buildCommon_org_header (c : Client) (m : HttpMethod) (url : String)
    (body : RequestBody) (orgFirst : Bool) (r : Request)
    (h : buildCommon c m url body orgFirst = BuildResult.ok r) :
    (r.hasHeader ORGANIZATION_HEADER = true ↔ c.org_id ≠ "") := by
  by_cases horg : c.org_id = ""
  · have hh : c.headers = Except.ok [] := by simp [Client.headers, horg]
    simp only [buildCommon, hh] at h
    cases hb : parseHeaderValue ("Bearer " ++ c.api_key) with
    | none => rw [hb] at h; exact absurd h (by simp)
    | some auth =>
      rw [hb] at h
      simp only [BuildResult.ok.injEq] at h
      subst h
      cases orgFirst <;>
        simp [Request.hasHeader, horg, ORGANIZATION_HEADER]
  · cases hpv : parseHeaderValue c.org_id with
    | none =>
      have hh : c.headers = Except.error () := by
        simp [Client.headers, horg, hpv]
      simp only [buildCommon, hh] at h
      exact absurd h (by simp)
    | some v =>
      have hh : c.headers = Except.ok [(ORGANIZATION_HEADER, v)] := by
        simp [Client.headers, horg, hpv]
      simp only [buildCommon, hh] at h
      cases hb : parseHeaderValue ("Bearer " ++ c.api_key) with
      | none => rw [hb] at h; exact absurd h (by simp)
      | some auth =>
        rw [hb] at h
        simp only [BuildResult.ok.injEq] at h
        subst h
        cases orgFirst <;> simp [Request.hasHeader, horg]

/-- C9: for every configuration and each of the six request builders
(GET, DELETE, POST, multipart POST, streaming POST, streaming GET),
the organization header is attached to the assembled request if and
only if the configured `org_id` is non-empty. -/
theorem org_header_attached_iff (c : Client) (path payload form query : String) :
    (∀ r, c.buildGet path = BuildResult.ok r →
      (r.hasHeader ORGANIZATION_HEADER = true ↔ c.org_id ≠ "")) ∧
    (∀ r, c.buildDelete path = BuildResult.ok r →
      (r.hasHeader ORGANIZATION_HEADER = true ↔ c.org_id ≠ "")) ∧
    (∀ r, c.buildPost path payload = BuildResult.ok r →
      (r.hasHeader ORGANIZATION_HEADER = true ↔ c.org_id ≠ "")) ∧
    (∀ r, c.buildPostForm path form = BuildResult.ok r →
      (r.hasHeader ORGANIZATION_HEADER = true ↔ c.org_id ≠ "")) ∧
    (∀ r, c.buildPostStream path payload = BuildResult.ok r →
      (r.hasHeader ORGANIZATION_HEADER = true ↔ c.org_id ≠ "")) ∧
    (∀ r, c.buildGetStream path query = BuildResult.ok r →
      (r.hasHeader ORGANIZATION_HEADER = true ↔ c.org_id ≠ "")) :=
  ⟨fun r h => buildCommon_org_header _ _ _ _ _ r h,
   fun r h => buildCommon_org_header _ _ _ _ _ r h,
   fun r h => buildCommon_org_header _ _ _ _ _ r h,
   fun r h => buildCommon_org_header _ _ _ _ _ r h,
   fun r h => buildCommon_org_header _ _ _ _ _ r h,
   fun r h => buildCommon_org_header _ _ _ _ _ r h⟩

/-- Witness for C9: a concrete client with a non-empty `org_id` gets
the organization header on its assembled GET request. -/
theorem org_header_attached_iff_witness :
    Request.hasHeader
        { method := HttpMethod.get, url := "https://api.openai.com/v1/models",
          headers := [("Authorization", "Bearer sk-x"), (ORGANIZATION_HEADER, "acme")],
          body := RequestBody.none } ORGANIZATION_HEADER = true :=
  ((org_header_attached_iff
      { api_key := "sk-x", api_base := "https://api.openai.com/v1",
        org_id := "acme", backoff := ⟨500, 150, 60000, 900000⟩ }
      "/models" "" "" "").1 _ (by decide)).mpr (by decide)
